import Mathlib

/-!
Shallow embedding of the SpaceS graphics/application core
(src/application.rs, src/graphics.rs).

External collaborators (wgpu, winit, imgui, the image decoder) are modelled
by their results, passed in as explicit arguments; the control flow, the
selection policies, and the data carried by each record are translated
directly from the Rust source.
-/

namespace SpaceS

/-! ## Basic GPU data model (wgpu collaborator types, as used by the source) -/

/-- A surface pixel format: an opaque identifier together with the
`is_srgb` flag the source queries (`f.is_srgb()`). -/
structure SurfaceFormat where
  id : Nat
  is_srgb : Bool
deriving DecidableEq, Repr

/-- A present mode, abstracted to an identifier. -/
abbrev PresentMode := Nat

/-- An alpha compositing mode, abstracted to an identifier. -/
abbrev AlphaMode := Nat

/-- Texture usage flags, as combined with `|` in the source. -/
structure TextureUsages where
  texture_binding : Bool
  copy_dst : Bool
  render_attachment : Bool
deriving DecidableEq, Repr

/-- `wgpu::TextureUsages::TEXTURE_BINDING | wgpu::TextureUsages::COPY_DST`. -/
def usagesBindingCopyDst : TextureUsages :=
  { texture_binding := true, copy_dst := true, render_attachment := false }

/-- `wgpu::TextureUsages::RENDER_ATTACHMENT`. -/
def usagesRenderAttachment : TextureUsages :=
  { texture_binding := false, copy_dst := false, render_attachment := true }

/-- `wgpu::SurfaceConfiguration` as built in
`ApplicationSimulationInterface::enable_graphics_interface`. -/
structure SurfaceConfiguration where
  usage : TextureUsages
  format : SurfaceFormat
  width : Nat
  height : Nat
  present_mode : PresentMode
  desired_maximum_frame_latency : Nat
  alpha_mode : AlphaMode
  view_formats : List SurfaceFormat
deriving DecidableEq, Repr

/-- The surface capability set returned by `surface.get_capabilities`. -/
structure SurfaceCapabilities where
  formats : List SurfaceFormat
  present_modes : List PresentMode
  alpha_modes : List AlphaMode
deriving DecidableEq, Repr

/-- `wgpu::DeviceType` of the chosen adapter. -/
inductive DeviceType
  | DiscreteGpu
  | IntegratedGpu
  | VirtualGpu
  | Cpu
  | Other
deriving DecidableEq, Repr

/-- `wgpu::Backend`, abstracted to an identifier. -/
abbrev BackendKind := Nat

/-- The `wgpu::AdapterInfo` fields the source reads. -/
structure AdapterInfo where
  name : String
  vendor : Nat
  device_type : DeviceType
  backend : BackendKind
deriving DecidableEq, Repr

/-- A physical adapter: its info plus the feature set and limits the
probe displays, abstracted to identifiers. -/
structure Adapter where
  info : AdapterInfo
  features : Nat
  limits : Nat
deriving DecidableEq, Repr

/-- A logical device handle (abstract). -/
structure Device where
  id : Nat
deriving DecidableEq, Repr

/-- A command queue handle (abstract). -/
structure Queue where
  id : Nat
deriving DecidableEq, Repr

/-- A presentable surface handle (abstract). -/
structure Surface where
  id : Nat
deriving DecidableEq, Repr

/-- The window's physical pixel size, as reported by
`window.inner_size()` at construction time. -/
structure WindowSize where
  width : Nat
  height : Nat
deriving DecidableEq, Repr

/-! ## GraphicsContext (`SimulationGraphcisInterface`) construction -/

/-- The `SimulationGraphcisInterface` struct of src/graphics.rs
(source spelling kept). -/
structure SimulationGraphcisInterface where
  application_surface : Surface
  gpu_handle : Adapter
  gpu_interface : Device
  gpu_queue : Queue
  surface_configuration : SurfaceConfiguration
deriving DecidableEq, Repr

/-- Fatal startup outcomes of `enable_graphics_interface`: each `unwrap`
panic or propagated `?` error during construction, by cause. -/
inductive StartupError
  | surfaceCreationFailed
  | adapterRequestFailed
  | deviceRequestFailed
  | noSrgbFormat
  | noPresentMode
  | noAlphaMode
deriving DecidableEq, Repr

/-- The non-fatal warning branch of `enable_graphics_interface`: true when
the chosen adapter is integrated / virtual / software (a log warning is
emitted, construction proceeds). -/
def integratedWarning (a : Adapter) : Bool :=
  match a.info.device_type with
  | .IntegratedGpu | .VirtualGpu | .Cpu => true
  | _ => false

/-- `ApplicationSimulationInterface::enable_graphics_interface`
(src/application.rs).  The external collaborator results are arguments:
`surface?` is the result of `backend_instance.create_surface(window)`
(`unwrap` on failure), `adapter?` the result of `request_adapter(...)`
blocked on (`?` on failure), `device?` the result of
`request_device(...)` blocked on (`?` on failure), and `caps` the
capability set returned by `surface.get_capabilities(&adapter)`.
The selection policy and the configuration record follow the source:
first format flagged sRGB (`find(is_srgb).unwrap()`), first present mode
(`present_modes.first().unwrap()`), first alpha mode
(`alpha_modes.first().unwrap()`), size taken from `window.inner_size()`,
`desired_maximum_frame_latency = 1`, `view_formats = vec![]`. -/
def enable_graphics_interface (window : WindowSize)
    (surface? : Option Surface)
    (adapter? : Option Adapter)
    (device? : Option (Device × Queue))
    (caps : SurfaceCapabilities) :
    Except StartupError SimulationGraphcisInterface :=
  match surface? with
  | none => .error .surfaceCreationFailed
  | some surface =>
    match adapter? with
    | none => .error .adapterRequestFailed
    | some graphics_adapter =>
      match device? with
      | none => .error .deviceRequestFailed
      | some interface =>
        match caps.formats.find? (fun f => f.is_srgb) with
        | none => .error .noSrgbFormat
        | some surface_format =>
          match caps.present_modes.head? with
          | none => .error .noPresentMode
          | some present_mode =>
            match caps.alpha_modes.head? with
            | none => .error .noAlphaMode
            | some alpha_mode =>
              let surface_configuration : SurfaceConfiguration :=
                { usage := usagesRenderAttachment
                  format := surface_format
                  width := window.width
                  height := window.height
                  present_mode := present_mode
                  desired_maximum_frame_latency := 1
                  alpha_mode := alpha_mode
                  view_formats := [] }
              .ok
                { application_surface := surface
                  gpu_handle := graphics_adapter
                  gpu_interface := interface.1
                  gpu_queue := interface.2
                  surface_configuration := surface_configuration }

/-! ## TextureUploader (`write_image_from_path_msaa_off`) -/

/-- A decoded image: pixel dimensions and the interleaved 8-bit RGBA
bytes produced by `to_rgba8()`. -/
structure Image where
  width : Nat
  height : Nat
  rgba8 : List Nat
deriving DecidableEq, Repr

/-- The decode failure of `image::open(path)?`. -/
inductive DecodeError
  | unreadablePath
  | unsupportedFormat
deriving DecidableEq, Repr

/-- `wgpu::Extent3d`. -/
structure Extent3d where
  width : Nat
  height : Nat
  depth_or_array_layers : Nat
deriving DecidableEq, Repr

/-- `wgpu::TextureDimension`. -/
inductive TextureDimension
  | D1
  | D2
  | D3
deriving DecidableEq, Repr

/-- The texture resource created by `device.create_texture`, carrying
the descriptor fields the source sets. -/
structure Texture where
  size : Extent3d
  mip_level_count : Nat
  sample_count : Nat
  dimension : TextureDimension
  format : SurfaceFormat
  usage : TextureUsages
  view_formats : List SurfaceFormat
deriving DecidableEq, Repr

/-- One `queue.write_texture` call: destination placement and data
layout as the source passes them. -/
structure TexelCopy where
  mip_level : Nat
  origin_zero : Bool
  data : List Nat
  offset : Nat
  bytes_per_row : Nat
  rows_per_image : Nat
  extent : Extent3d
deriving DecidableEq, Repr

/-- `write_image_from_path_msaa_off` (src/graphics.rs).  The decoder
result of `image::open(path)` is the `image_load` argument; on decode
failure the error propagates via `?`, otherwise a 2D texture sized to
the decoded dimensions is created in the surface configuration's format
and the RGBA bytes are written in a single copy with
`bytes_per_row = 4 * width`. -/
def write_image_from_path_msaa_off (surface_conf : SurfaceConfiguration)
    (image_load : Except DecodeError Image) :
    Except DecodeError (Texture × List TexelCopy) :=
  match image_load with
  | .error e => .error e
  | .ok img =>
    let size : Extent3d :=
      { width := img.width, height := img.height, depth_or_array_layers := 1 }
    let texture : Texture :=
      { size := size
        mip_level_count := 1
        sample_count := 1
        dimension := .D2
        format := surface_conf.format
        usage := usagesBindingCopyDst
        view_formats := [] }
    let copy : TexelCopy :=
      { mip_level := 0
        origin_zero := true
        data := img.rgba8
        offset := 0
        bytes_per_row := 4 * img.width
        rows_per_image := img.height
        extent := size }
    .ok (texture, [copy])

/-! ## AdapterProbe (`display_evailable_graphic_adapters`) -/

/-- The `PhysicalAdapterProperty` enum (src/graphics.rs), variants in
declaration order — note the sixth variant `Integrated`. -/
inductive PhysicalAdapterProperty
  | Vendor
  | DeviceType
  | Backend
  | Features
  | Limits
  | Integrated
deriving DecidableEq, Repr

/-- The sequence produced by `PhysicalAdapterProperty::iter()`
(strum `EnumIter`: all variants in declaration order). -/
def PhysicalAdapterProperty.iterAll : List PhysicalAdapterProperty :=
  [.Vendor, .DeviceType, .Backend, .Features, .Limits, .Integrated]

/-- The adapter information selected for display by
`display_adapter_property` for one property. -/
inductive DisplayedInfo
  | vendorInfo (v : Nat)
  | deviceTypeInfo (d : DeviceType)
  | backendInfo (b : BackendKind)
  | featuresInfo (f : Nat)
  | limitsInfo (l : Nat)
deriving DecidableEq, Repr

/-- `display_adapter_property` (src/graphics.rs): the information boxed
for each property.  `Integrated` displays the device type again. -/
def display_adapter_property (adapter : Adapter) :
    PhysicalAdapterProperty → DisplayedInfo
  | .Vendor => .vendorInfo adapter.info.vendor
  | .DeviceType => .deviceTypeInfo adapter.info.device_type
  | .Backend => .backendInfo adapter.info.backend
  | .Features => .featuresInfo adapter.features
  | .Limits => .limitsInfo adapter.limits
  | .Integrated => .deviceTypeInfo adapter.info.device_type

/-- `display_evailable_graphic_adapters` (src/graphics.rs, source
spelling kept): for each enumerated adapter, the displayed property
information, in iteration order.  Pure diagnostics: it returns log
content and touches nothing. -/
def display_evailable_graphic_adapters (adapters : List Adapter) :
    List (List DisplayedInfo) :=
  adapters.map (fun gpu_handle =>
    PhysicalAdapterProperty.iterAll.map
      (fun item => display_adapter_property gpu_handle item))

/-! ## FrameDriver (`graphics::render`) as an event trace -/

/-- An imgui texture id. -/
abbrev TextureId := Nat

/-- The texture registry `FastHashMap<&str, TextureId>`, as an
association list; `get` is `lookupTex`. -/
abbrev TextureMap := List (String × TextureId)

/-- `texture_map.get(name)`. -/
def lookupTex (m : TextureMap) (name : String) : Option TextureId :=
  match m.find? (fun p => p.1 == name) with
  | some p => some p.2
  | none => none

/-- A color as the four `f64` literals of the source, carried exactly
as rational values. -/
structure Color where
  r : ℚ
  g : ℚ
  b : ℚ
  a : ℚ
deriving DecidableEq, Repr

/-- The fixed clear color of the render pass:
`r: 3.2/255, g: 3.1/255, b: 3.4/255, a: 1.0`. -/
def backgroundClear : Color :=
  { r := 3.2 / 255, g := 3.1 / 255, b := 3.4 / 255, a := 1 }

/-- `wgpu::LoadOp` of the color attachment. -/
inductive LoadOp
  | clear (c : Color)
  | load
deriving DecidableEq, Repr

/-- `wgpu::StoreOp` of the color attachment. -/
inductive StoreOp
  | store
  | discard
deriving DecidableEq, Repr

/-- One observable step of `graphics::render`, in the order the source
performs them. -/
inductive FrameStep
  | requestRedraw
  | prepareFrame
  | buildUIBegin
  | declareWidgets (tid : TextureId)
  | acquireImage
  | beginRenderPass (loadOp : LoadOp) (storeOp : StoreOp)
  | prepareRender
  | finalizeDrawData
  | overlayRender
  | endRenderPass
  | finishEncoder
  | submit
  | present
deriving DecidableEq, Repr

/-- How one invocation of `render` ends: normally (`Ok(())`), with a
frame-local `Err` propagated by `?`, or with a panic (`unwrap`). -/
inductive RenderOutcome
  | ok
  | frameError
  | panicked
deriving DecidableEq, Repr

/-- `graphics::render` (src/graphics.rs), as the outcome together with
the trace of steps it performed.  External per-frame conditions are
arguments: `acquireOk` is whether `get_current_texture()` succeeds
(`?` on failure), `rendererOk` whether `imgui_renderer.render(...)`
succeeds (`?` on failure).  Source order: `request_redraw`;
`prepare_frame`; `imgui_context.frame()`; menu bar with
`image_button(texture_map.get("tex.icon").unwrap())`;
`get_current_texture()?`; command encoder; render pass (clear to
`backgroundClear`, store); inside the pass `prepare_render`,
`imgui_context.render()`, `imgui_renderer.render(...)?`; pass scope
ends; `encoder.finish()`; `queue.submit`; `output.present()`. -/
def render (texture_map : TextureMap) (acquireOk : Bool)
    (rendererOk : Bool) : RenderOutcome × List FrameStep :=
  let t0 : List FrameStep := [.requestRedraw, .prepareFrame, .buildUIBegin]
  match lookupTex texture_map "tex.icon" with
  | none => (.panicked, t0)
  | some tid =>
    let t1 := t0 ++ [.declareWidgets tid]
    if !acquireOk then
      (.frameError, t1 ++ [.acquireImage])
    else
      let t2 := t1 ++ [.acquireImage,
        .beginRenderPass (.clear backgroundClear) .store,
        .prepareRender, .finalizeDrawData, .overlayRender]
      if !rendererOk then
        (.frameError, t2)
      else
        (.ok, t2 ++ [.endRenderPass, .finishEncoder, .submit, .present])

/-- Index of the first occurrence of a step in a trace. -/
def firstIdx : List FrameStep → FrameStep → Option Nat
  | [], _ => none
  | x :: xs, s => if x = s then some 0 else (firstIdx xs s).map (· + 1)

/-- `stepBefore tr a b`: both steps occur in the trace and the first
occurrence of `a` precedes the first occurrence of `b`. -/
def stepBefore (tr : List FrameStep) (a b : FrameStep) : Bool :=
  match firstIdx tr a, firstIdx tr b with
  | some i, some j => i < j
  | _, _ => false

/-- Whether a step is a `beginRenderPass` (any payload). -/
def isBeginPass : FrameStep → Bool
  | .beginRenderPass _ _ => true
  | _ => false

/-! ## ApplicationShell (`ApplicationSimulationInterface`) -/

/-- `winit::keyboard::KeyCode`, reduced to what the source matches. -/
inductive KeyCode
  | Escape
  | OtherKey (code : Nat)
deriving DecidableEq, Repr

/-- The window events the source dispatches on. -/
inductive WinEvent
  | redrawRequested
  | keyboardInput (key : KeyCode)
  | otherEvent (payload : Nat)
deriving DecidableEq, Repr

/-- Whether an event carries input/window state for the UI I/O adapter
(redraw requests carry none). -/
def WinEvent.isInput : WinEvent → Bool
  | .redrawRequested => false
  | _ => true

/-- The shell state the embedding tracks: the cumulative list of events
forwarded to `imgui_platform.handle_event` (the UI I/O state), the
texture registry built at startup, and whether `event_loop.exit()` was
requested. -/
structure ShellState where
  io_events : List WinEvent
  texture_map : TextureMap
  exiting : Bool
deriving DecidableEq, Repr

/-- What one processed redraw request yields: the I/O state snapshot the
frame build observes, plus the `render` result. -/
structure FrameResult where
  observed_io : List WinEvent
  outcome : RenderOutcome
  trace : List FrameStep
deriving DecidableEq, Repr

/-- Per-frame external conditions threaded into `render`. -/
structure FrameEnv where
  acquireOk : Bool
  rendererOk : Bool
deriving DecidableEq, Repr

/-- `ApplicationSimulationInterface::window_event` (src/application.rs):
first the event is forwarded to `imgui_platform.handle_event`, then the
dispatch runs: `RedrawRequested` invokes `graphics::render` and matches
its result with `Ok(_) => {}` and `Err(_) => {}`; `KeyboardInput` calls
`on_key_input`, which exits the event loop on `Escape`; every other
event is a no-op. -/
def window_event (env : FrameEnv) (s : ShellState) (e : WinEvent) :
    ShellState × Option FrameResult :=
  let s1 : ShellState := { s with io_events := s.io_events ++ [e] }
  match e with
  | .redrawRequested =>
    let r := render s1.texture_map env.acquireOk env.rendererOk
    (s1, some { observed_io := s1.io_events, outcome := r.1, trace := r.2 })
  | .keyboardInput key =>
    (if key = .Escape then { s1 with exiting := true } else s1, none)
  | .otherEvent _ => (s1, none)

/-- The event loop driving `window_event` over a sequence of events. -/
def run_events (env : FrameEnv) (s : ShellState) : List WinEvent → ShellState
  | [] => s
  | e :: rest => run_events env (window_event env s e).1 rest

/-- The texture registry built by `enable_event_loop`
(src/application.rs): before the event loop starts, exactly the name
`"tex.icon"` is inserted, mapped to the renderer-assigned id of the
uploaded icon texture. -/
def startup_texture_map (icon_texture_id : TextureId) : TextureMap :=
  [("tex.icon", icon_texture_id)]

/-- `texture_map.get(name).unwrap()` as performed inside the UI
declaration: a missing name is a panic (a fatal precondition
violation), never a silent no-op. -/
def registry_image_button (m : TextureMap) (name : String) :
    Except Unit TextureId :=
  match lookupTex m name with
  | none => .error ()
  | some tid => .ok tid

/-- A sample adapter used to evaluate the probe on a concrete input. -/
def probeSampleAdapter : Adapter :=
  ⟨⟨"Sample", 0x10DE, .DiscreteGpu, 1⟩, 2, 3⟩

/-- `enable_graphics_interface` with the diagnostic probe step made
explicit: the probe (when run) produces only log content
(`display_evailable_graphic_adapters` output); construction proceeds
exactly as in the source either way. -/
def enable_graphics_interface_probed (runProbe : Bool) (adapters : List Adapter)
    (window : WindowSize) (s? : Option Surface) (a? : Option Adapter)
    (d? : Option (Device × Queue)) (caps : SurfaceCapabilities) :
    List (List DisplayedInfo) × Except StartupError SimulationGraphcisInterface :=
  ((if runProbe then display_evailable_graphic_adapters adapters else []),
   enable_graphics_interface window s? a? d? caps)

/-! ## Helper lemmas -/

/-- `window_event` always appends the processed event to the forwarded
I/O state (forwarding happens before dispatch in every branch) and
never touches the texture registry. -/
theorem window_event_io_append (env : FrameEnv) (s : ShellState) (e : WinEvent) :
    ((window_event env s e).1).io_events = s.io_events ++ [e] ∧
    ((window_event env s e).1).texture_map = s.texture_map := by
  cases e with
  | redrawRequested => exact ⟨rfl, rfl⟩
  | keyboardInput key =>
    by_cases hk : key = KeyCode.Escape <;> simp [window_event, hk]
  | otherEvent p => exact ⟨rfl, rfl⟩

/-- Running the loop over an event list appends exactly that list to the
forwarded I/O state and preserves the texture registry. -/
theorem run_events_io (env : FrameEnv) (evs : List WinEvent) (s : ShellState) :
    (run_events env s evs).io_events = s.io_events ++ evs ∧
    (run_events env s evs).texture_map = s.texture_map := by
  induction evs generalizing s with
  | nil => simp [run_events]
  | cons e rest ih =>
    have h := window_event_io_append env s e
    have h2 := ih ((window_event env s e).1)
    refine ⟨?_, ?_⟩
    · rw [run_events, h2.1, h.1]; simp
    · rw [run_events, h2.2, h.2]

/-! ## Claims -/

/-- C1: `enable_graphics_interface` either fails with a fatal startup
error or returns a context whose surface configuration's width and
height exactly equal the window's physical pixel size at construction
time; no other outcome is possible. -/
theorem enable_graphics_interface_size_invariant
    (window : WindowSize) (s? : Option Surface) (a? : Option Adapter)
    (d? : Option (Device × Queue)) (caps : SurfaceCapabilities) :
    (∃ e, enable_graphics_interface window s? a? d? caps = .error e) ∨
    (∃ ctx, enable_graphics_interface window s? a? d? caps = .ok ctx ∧
      ctx.surface_configuration.width = window.width ∧
      ctx.surface_configuration.height = window.height) := by
  unfold enable_graphics_interface
  repeat' split
  all_goals first
    | exact .inl ⟨_, rfl⟩
    | exact .inr ⟨_, rfl, rfl, rfl⟩

/-- C4: whenever construction succeeds, the configured format is the
first sRGB-flagged format of the capability list, the present mode the
first present mode offered, and the alpha mode the first alpha mode
offered; and when no sRGB format exists (all earlier steps having
succeeded), construction fails fatally. -/
theorem enable_graphics_interface_capability_selection
    (window : WindowSize) (s : Surface) (a : Adapter)
    (d : Device × Queue) (caps : SurfaceCapabilities) :
    (∀ ctx, enable_graphics_interface window (some s) (some a) (some d) caps = .ok ctx →
      caps.formats.find? (fun f => f.is_srgb) = some ctx.surface_configuration.format ∧
      caps.present_modes.head? = some ctx.surface_configuration.present_mode ∧
      caps.alpha_modes.head? = some ctx.surface_configuration.alpha_mode) ∧
    (caps.formats.find? (fun f => f.is_srgb) = none →
      enable_graphics_interface window (some s) (some a) (some d) caps =
        .error .noSrgbFormat) := by
  constructor
  · intro ctx hctx
    unfold enable_graphics_interface at hctx
    cases hf : caps.formats.find? (fun f => f.is_srgb) with
    | none => rw [hf] at hctx; exact absurd hctx (by simp)
    | some fmt =>
      rw [hf] at hctx
      cases hp : caps.present_modes.head? with
      | none => rw [hp] at hctx; exact absurd hctx (by simp)
      | some pm =>
        rw [hp] at hctx
        cases hm : caps.alpha_modes.head? with
        | none => rw [hm] at hctx; exact absurd hctx (by simp)
        | some am =>
          rw [hm] at hctx
          simp only [Except.ok.injEq] at hctx
          subst hctx
          exact ⟨rfl, rfl, rfl⟩
  · intro hf
    unfold enable_graphics_interface
    rw [hf]

/-- C4 witness: a concrete capability set with one sRGB format. -/
theorem enable_graphics_interface_capability_selection_witness :
    enable_graphics_interface ⟨1200, 600⟩ (some ⟨0⟩) (some ⟨⟨"gpu", 0, .DiscreteGpu, 0⟩, 0, 0⟩)
        (some (⟨0⟩, ⟨0⟩)) ⟨[⟨5, false⟩, ⟨7, true⟩], [2], [3]⟩ =
      .ok ⟨⟨0⟩, ⟨⟨"gpu", 0, .DiscreteGpu, 0⟩, 0, 0⟩, ⟨0⟩, ⟨0⟩,
        ⟨usagesRenderAttachment, ⟨7, true⟩, 1200, 600, 2, 1, 3, []⟩⟩ ∧
    ([⟨5, false⟩, ⟨7, true⟩] : List SurfaceFormat).find? (fun f => f.is_srgb) =
      some ⟨7, true⟩ := by
  refine ⟨rfl, ?_⟩
  have h := (enable_graphics_interface_capability_selection ⟨1200, 600⟩ ⟨0⟩
    ⟨⟨"gpu", 0, .DiscreteGpu, 0⟩, 0, 0⟩ (⟨0⟩, ⟨0⟩)
    ⟨[⟨5, false⟩, ⟨7, true⟩], [2], [3]⟩).1
    ⟨⟨0⟩, ⟨⟨"gpu", 0, .DiscreteGpu, 0⟩, 0, 0⟩, ⟨0⟩, ⟨0⟩,
      ⟨usagesRenderAttachment, ⟨7, true⟩, 1200, 600, 2, 1, 3, []⟩⟩ rfl
  exact h.1

/-- C5: a successful upload yields a 2D texture with the decoded
image's dimensions, one mip level, sample count one, usage
{sampled, copy-destination}, the surface configuration's format, and a
single copy of the RGBA bytes at offset 0 with row stride `4 * width`;
a decode failure propagates as the decode error. -/
theorem write_image_from_path_msaa_off_spec
    (conf : SurfaceConfiguration) (img : Image) (e : DecodeError) :
    (∃ t c, write_image_from_path_msaa_off conf (.ok img) = .ok (t, [c]) ∧
      t.size.width = img.width ∧ t.size.height = img.height ∧
      t.size.depth_or_array_layers = 1 ∧
      t.mip_level_count = 1 ∧ t.sample_count = 1 ∧
      t.dimension = .D2 ∧
      t.usage = usagesBindingCopyDst ∧
      t.format = conf.format ∧
      c.data = img.rgba8 ∧ c.offset = 0 ∧
      c.bytes_per_row = 4 * img.width ∧ c.rows_per_image = img.height ∧
      c.extent = t.size) ∧
    write_image_from_path_msaa_off conf (.error e) = .error e := by
  exact ⟨⟨_, _, rfl, rfl, rfl, rfl, rfl, rfl, rfl, rfl, rfl, rfl, rfl, rfl, rfl, rfl⟩, rfl⟩

/-- C10: on every invocation of `render`, for every registry content and
every acquisition/renderer outcome, the very first step of the trace is
the redraw request. -/
theorem render_requests_redraw_first (m : TextureMap) (aOk rOk : Bool) :
    (render m aOk rOk).2.head? = some .requestRedraw := by
  unfold render
  cases lookupTex m "tex.icon" <;> cases aOk <;> cases rOk <;> rfl

/-- C2 counterexample: at a concrete registry and with acquisition and
rendering succeeding, the acquired-image step does NOT precede the UI
frame build in the `render` trace — the UI frame is begun first. -/
theorem render_acquire_before_build_cex :
    stepBefore (render (startup_texture_map 0) true true).2
      .acquireImage .buildUIBegin = false ∧
    stepBefore (render (startup_texture_map 0) true true).2
      .buildUIBegin .acquireImage = true := by
  decide

/-- C2 (amended): within one `render` invocation, the UI frame is begun
(and its widgets declared) before the presentable image is acquired;
acquisition precedes render-pass recording, recording precedes
submission, and submission precedes presentation. -/
theorem render_step_order (m : TextureMap) (tid : TextureId)
    (h : lookupTex m "tex.icon" = some tid) :
    stepBefore (render m true true).2 .buildUIBegin .acquireImage = true ∧
    stepBefore (render m true true).2 .acquireImage
      (.beginRenderPass (.clear backgroundClear) .store) = true ∧
    stepBefore (render m true true).2
      (.beginRenderPass (.clear backgroundClear) .store) .submit = true ∧
    stepBefore (render m true true).2 .submit .present = true := by
  simp [render, h, stepBefore, firstIdx]

/-- C2 witness: the amended ordering at a concrete registry. -/
theorem render_step_order_witness :
    lookupTex (startup_texture_map 5) "tex.icon" = some 5 ∧
    stepBefore (render (startup_texture_map 5) true true).2
      .buildUIBegin .acquireImage = true := by
  exact ⟨rfl, (render_step_order (startup_texture_map 5) 5 rfl).1⟩

/-- C3: when presentable-image acquisition fails, the error is swallowed
at the shell boundary (`Err(_) => {}`): the shell does not exit, the
emitted frame ends in a frame-local error whose trace stops at the
acquisition attempt — no render pass, no draw-data finalization, no
overlay render, no submission, no presentation — and a subsequent
redraw request with a healthy surface produces a normal frame. -/
theorem acquire_failure_isolated (env : FrameEnv) (s : ShellState) (tid : TextureId)
    (h : lookupTex s.texture_map "tex.icon" = some tid)
    (ha : env.acquireOk = false) :
    ((window_event env s .redrawRequested).1).exiting = s.exiting ∧
    (window_event env s .redrawRequested).2 =
      some { observed_io := s.io_events ++ [.redrawRequested]
             outcome := .frameError
             trace := [.requestRedraw, .prepareFrame, .buildUIBegin,
               .declareWidgets tid, .acquireImage] } ∧
    ([.requestRedraw, .prepareFrame, .buildUIBegin, .declareWidgets tid,
        .acquireImage] : List FrameStep).filter isBeginPass = [] ∧
    FrameStep.submit ∉ ([.requestRedraw, .prepareFrame, .buildUIBegin,
        .declareWidgets tid, .acquireImage] : List FrameStep) ∧
    FrameStep.present ∉ ([.requestRedraw, .prepareFrame, .buildUIBegin,
        .declareWidgets tid, .acquireImage] : List FrameStep) ∧
    (∃ fr2, (window_event ⟨true, true⟩ (window_event env s .redrawRequested).1
        .redrawRequested).2 = some fr2 ∧ fr2.outcome = .ok) := by
  obtain ⟨aOk, rOk⟩ := env
  simp only at ha
  subst ha
  refine ⟨rfl, ?_, by simp [isBeginPass], by simp, by simp, ?_⟩
  · simp [window_event, render, h]
  · refine ⟨_, rfl, ?_⟩
    simp [window_event, render, h]

/-- C3 witness: a concrete failed acquisition on a concrete shell. -/
theorem acquire_failure_isolated_witness :
    lookupTex (startup_texture_map 3) "tex.icon" = some 3 ∧
    ((window_event ⟨false, true⟩ ⟨[], startup_texture_map 3, false⟩
      .redrawRequested).1).exiting = false := by
  refine ⟨rfl, ?_⟩
  exact (acquire_failure_isolated ⟨false, true⟩ ⟨[], startup_texture_map 3, false⟩
    3 rfl rfl).1

/-- C6: a successful frame records exactly one render pass, whose load
operation clears to the fixed background color
(r = 3.2/255, g = 3.1/255, b = 3.4/255, a = 1) and whose store
operation keeps the result; the overlay renderer runs inside the pass,
the pass closes before command recording finishes, exactly one
submission occurs, and exactly one presentation occurs, after
submission. -/
theorem render_single_pass_clear_submit_present (m : TextureMap) (tid : TextureId)
    (h : lookupTex m "tex.icon" = some tid) :
    (render m true true).1 = .ok ∧
    ((render m true true).2).filter isBeginPass =
      [.beginRenderPass (.clear backgroundClear) .store] ∧
    backgroundClear = { r := 3.2 / 255, g := 3.1 / 255, b := 3.4 / 255, a := 1 } ∧
    stepBefore (render m true true).2
      (.beginRenderPass (.clear backgroundClear) .store) .overlayRender = true ∧
    stepBefore (render m true true).2 .overlayRender .endRenderPass = true ∧
    stepBefore (render m true true).2 .endRenderPass .finishEncoder = true ∧
    ((render m true true).2).count .submit = 1 ∧
    ((render m true true).2).count .present = 1 ∧
    stepBefore (render m true true).2 .submit .present = true := by
  refine ⟨by simp [render, h], ?_, rfl, ?_, ?_, ?_, ?_, ?_, ?_⟩ <;>
    simp [render, h, stepBefore, firstIdx, isBeginPass, List.count_cons]

/-- C6 witness: the single-pass/single-present shape at a concrete
registry. -/
theorem render_single_pass_clear_submit_present_witness :
    lookupTex (startup_texture_map 9) "tex.icon" = some 9 ∧
    (render (startup_texture_map 9) true true).1 = .ok ∧
    ((render (startup_texture_map 9) true true).2).count .submit = 1 := by
  refine ⟨rfl, ?_, ?_⟩
  · exact (render_single_pass_clear_submit_present (startup_texture_map 9) 9 rfl).1
  · exact (render_single_pass_clear_submit_present
      (startup_texture_map 9) 9 rfl).2.2.2.2.2.2.1

/-- C7: looking up an unregistered registry name during the frame build
is a panic (a fatal precondition violation), never a silent no-op —
both for the hard-coded `"tex.icon"` lookup when it is unregistered and
for an arbitrary unregistered name such as `"missing"`; with the
registry built before the event loop starts the lookup succeeds on
every frame, whatever the frame's other conditions. -/
theorem texture_registry_lookup_policy (m : TextureMap) (icon : TextureId)
    (aOk rOk : Bool) (hmiss : lookupTex m "tex.icon" = none) :
    (render m aOk rOk).1 = .panicked ∧
    registry_image_button m "tex.icon" = .error () ∧
    registry_image_button (startup_texture_map icon) "missing" = .error () ∧
    lookupTex (startup_texture_map icon) "tex.icon" = some icon ∧
    (render (startup_texture_map icon) aOk rOk).1 ≠ .panicked ∧
    FrameStep.declareWidgets icon ∈ (render (startup_texture_map icon) aOk rOk).2 := by
  have hl : lookupTex (startup_texture_map icon) "tex.icon" = some icon := rfl
  refine ⟨by simp [render, hmiss], by simp [registry_image_button, hmiss],
    rfl, hl, ?_, ?_⟩
  · cases aOk <;> cases rOk <;> simp [render, hl]
  · cases aOk <;> cases rOk <;> simp [render, hl]

/-- C7 witness: an empty registry misses, the startup registry hits. -/
theorem texture_registry_lookup_policy_witness :
    lookupTex [] "tex.icon" = none ∧
    (render [] true true).1 = .panicked ∧
    lookupTex (startup_texture_map 4) "tex.icon" = some 4 := by
  refine ⟨rfl, ?_, ?_⟩
  · exact (texture_registry_lookup_policy [] 4 true true rfl).1
  · exact (texture_registry_lookup_policy [] 4 true true rfl).2.2.2.1

/-- C8: every OS window event is forwarded to the UI I/O adapter before
dispatch runs, so the I/O state observed while building the frame for a
redraw request at position `i` of the event sequence is exactly the
prefix of forwarded events up to and including that request, and its
input content is exactly the input content of the events strictly
before the request — none forwarded after. -/
theorem event_forwarding_before_frame_build (env : FrameEnv) (tm : TextureMap)
    (evs : List WinEvent) (i : Nat)
    (hi : evs[i]? = some .redrawRequested) :
    ∃ fr, (window_event env (run_events env ⟨[], tm, false⟩ (evs.take i))
        .redrawRequested).2 = some fr ∧
      fr.observed_io = evs.take i ++ [.redrawRequested] ∧
      fr.observed_io.filter WinEvent.isInput =
        (evs.take i).filter WinEvent.isInput := by
  have hio := (run_events_io env (evs.take i) ⟨[], tm, false⟩).1
  simp only at hio
  refine ⟨_, rfl, ?_, ?_⟩
  · simp [window_event, hio]
  · simp [window_event, hio, List.filter_append, WinEvent.isInput]

/-- C8 witness: one input event followed by a redraw request. -/
theorem event_forwarding_before_frame_build_witness :
    ([WinEvent.otherEvent 1, WinEvent.redrawRequested][1]? =
      some WinEvent.redrawRequested) ∧
    ∃ fr, (window_event ⟨true, true⟩ (run_events ⟨true, true⟩
        ⟨[], startup_texture_map 2, false⟩
        ([WinEvent.otherEvent 1, WinEvent.redrawRequested].take 1))
        .redrawRequested).2 = some fr ∧
      fr.observed_io = [WinEvent.otherEvent 1, WinEvent.redrawRequested].take 1 ++
        [.redrawRequested] ∧
      fr.observed_io.filter WinEvent.isInput =
        ([WinEvent.otherEvent 1, WinEvent.redrawRequested].take 1).filter
          WinEvent.isInput := by
  refine ⟨rfl, ?_⟩
  exact event_forwarding_before_frame_build ⟨true, true⟩ (startup_texture_map 2)
    [WinEvent.otherEvent 1, WinEvent.redrawRequested] 1 rfl

/-- C9 counterexample: the probe iterates a sixth property beyond
{Vendor, DeviceType, Backend, Features, Limits} — the `Integrated`
variant — so for a concrete adapter the displayed property list has
length 6, not 5. -/
theorem adapter_probe_five_properties_cex :
    PhysicalAdapterProperty.iterAll ≠
      ([.Vendor, .DeviceType, .Backend, .Features, .Limits] :
        List PhysicalAdapterProperty) ∧
    (display_evailable_graphic_adapters [probeSampleAdapter]).map List.length =
      [6] ∧
    display_adapter_property probeSampleAdapter .Integrated =
      .deviceTypeInfo probeSampleAdapter.info.device_type := by
  decide

/-- C9 (amended): for each enumerated adapter the probe exposes exactly
the six-property list {Vendor, DeviceType, Backend, Features, Limits,
Integrated}, where `Integrated` re-displays the device type; and
running the probe has no effect on the subsequent context construction
(the result is the same whether or not the probe ran). -/
theorem adapter_probe_properties_and_selection (adapters : List Adapter)
    (window : WindowSize) (s? : Option Surface) (a? : Option Adapter)
    (d? : Option (Device × Queue)) (caps : SurfaceCapabilities) :
    display_evailable_graphic_adapters adapters =
      adapters.map (fun ad =>
        [.vendorInfo ad.info.vendor, .deviceTypeInfo ad.info.device_type,
         .backendInfo ad.info.backend, .featuresInfo ad.features,
         .limitsInfo ad.limits, .deviceTypeInfo ad.info.device_type]) ∧
    (enable_graphics_interface_probed true adapters window s? a? d? caps).2 =
      (enable_graphics_interface_probed false adapters window s? a? d? caps).2 := by
  exact ⟨by simp [display_evailable_graphic_adapters,
    PhysicalAdapterProperty.iterAll, display_adapter_property], rfl⟩

end SpaceS
